import Mathlib

/-!
Shallow embedding of the OAuth authentication lifecycle subsystem of the
eis-cli tool (Go sources under internal/bitbucket), together with theorems
settling the specification claims about it.

Time is modelled as seconds since the epoch (`Int`); `time.Now()` becomes an
explicit `now` parameter.  The two authority HTTP calls are modelled after the
transport layer: an `AuthorityResponse` carries the HTTP status, the raw body,
and the result of `json.Unmarshal` on the body.  Filesystem effects (`Save`,
`os.Remove`) are passed in explicitly.
-/

namespace EisCli

/-- TokenStore struct (token_store.go): the persisted credential record.
`expiresAt` is an absolute timestamp in seconds. -/
structure TokenStore where
  accessToken : String
  refreshToken : String
  expiresAt : Int
  tokenType : String
  scopes : String
deriving Repr, DecidableEq

/-- The 5-minute expiry margin used by `IsExpired`, in seconds. -/
def fiveMinutes : Int := 300

/-- IsExpired (token_store.go:71-75):
`time.Now().Add(5 * time.Minute).After(ts.ExpiresAt)`, i.e. the token counts
as expired as soon as `now + 5 minutes` is strictly after `expiresAt`. -/
def TokenStore.isExpired (ts : TokenStore) (now : Int) : Bool :=
  decide (ts.expiresAt < now + fiveMinutes)

/-- IsValid (token_store.go:94-97):
`ts.AccessToken != "" && ts.RefreshToken != "" && !ts.IsExpired()`. -/
def TokenStore.isValid (ts : TokenStore) (now : Int) : Bool :=
  ts.accessToken != "" && ts.refreshToken != "" && !(ts.isExpired now)

/-- NeedsRefresh (token_store.go:99-102):
`ts.AccessToken != "" && ts.RefreshToken != "" && ts.IsExpired()`. -/
def TokenStore.needsRefresh (ts : TokenStore) (now : Int) : Bool :=
  ts.accessToken != "" && ts.refreshToken != "" && ts.isExpired now

/-- The four outcomes the callback route can deliver for one inbound
request (oauth.go `startCallbackServer`, the `/callback` handler: an error on
`errChan` for the first three, the code on `codeChan` for the last). -/
inductive CallbackOutcome where
  | authorityDenied (code description : String)
  | stateMismatch
  | missingCode
  | success (code : String)
deriving Repr, DecidableEq

/-- The query parameters of one inbound request to the `/callback` route.
Go's `r.URL.Query().Get(k)` yields `""` when the parameter is absent, so an
empty string models an absent parameter. -/
structure CallbackRequest where
  error : String
  errorDescription : String
  state : String
  code : String
deriving Repr, DecidableEq

/-- The `/callback` handler (oauth.go:142-183), as the pure decision it makes
on one inbound request given the CSRF state of the current attempt:
check `error`, then `state`, then `code`, in that order. -/
def handleCallback (expectedState : String) (r : CallbackRequest) : CallbackOutcome :=
  if r.error != "" then .authorityDenied r.error r.errorDescription
  else if r.state != expectedState then .stateMismatch
  else if r.code == "" then .missingCode
  else .success r.code

end EisCli

/-- C2: the callback handler decides the outcome in this fixed order: a
non-empty `error` parameter yields `AuthorityDenied` with the error code and
description; otherwise a `state` differing from the current attempt's CSRF
state yields `StateMismatch`; otherwise an absent `code` yields
`MissingCode`; otherwise `Success(code)`.  In particular a request whose
`state` does not match is never a success, whatever `code` it carries. -/
theorem EisCli.callback_dispatch_order (expectedState : String) (r : EisCli.CallbackRequest) :
    (r.error ≠ "" →
      EisCli.handleCallback expectedState r = .authorityDenied r.error r.errorDescription) ∧
    (r.error = "" → r.state ≠ expectedState →
      EisCli.handleCallback expectedState r = .stateMismatch) ∧
    (r.error = "" → r.state = expectedState → r.code = "" →
      EisCli.handleCallback expectedState r = .missingCode) ∧
    (r.error = "" → r.state = expectedState → r.code ≠ "" →
      EisCli.handleCallback expectedState r = .success r.code) ∧
    (r.state ≠ expectedState → ∀ c, EisCli.handleCallback expectedState r ≠ .success c) := by
  refine ⟨fun he => ?_, fun he hs => ?_, fun he hs hc => ?_, fun he hs hc => ?_,
    fun hs c => ?_⟩ <;>
    by_cases he' : r.error = "" <;>
    simp_all [EisCli.handleCallback]

/-- C2 (witness): the dispatch order at concrete requests — an authority
error wins over everything, and a mismatched state is rejected even though a
code is present. -/
theorem EisCli.callback_dispatch_order_witness :
    EisCli.handleCallback "good" ⟨"access_denied", "nope", "good", "c0"⟩ =
      .authorityDenied "access_denied" "nope" ∧
    EisCli.handleCallback "good" ⟨"", "", "evil", "c0"⟩ = .stateMismatch ∧
    EisCli.handleCallback "good" ⟨"", "", "evil", "c0"⟩ ≠ .success "c0" := by
  refine ⟨(EisCli.callback_dispatch_order "good" ⟨"access_denied", "nope", "good", "c0"⟩).1
      (by decide),
    (EisCli.callback_dispatch_order "good" ⟨"", "", "evil", "c0"⟩).2.1 rfl (by decide),
    (EisCli.callback_dispatch_order "good" ⟨"", "", "evil", "c0"⟩).2.2.2.2
      (by decide) "c0"⟩

/-- C1 (counterexample): at `now = 0` the record
`⟨"a", "r", 100, "bearer", ""⟩` has both tokens non-empty and `now` strictly
before `expiresAt = 100`, yet `IsValid` is `false` and `NeedsRefresh` is
`true`: the predicates are decided against `expiresAt` minus the 5-minute
margin, not against the literal `expiresAt`. -/
theorem EisCli.validity_literal_expiry_refuted :
    (EisCli.TokenStore.mk "a" "r" 100 "bearer" "").accessToken ≠ "" ∧
    (EisCli.TokenStore.mk "a" "r" 100 "bearer" "").refreshToken ≠ "" ∧
    (0 : Int) < (EisCli.TokenStore.mk "a" "r" 100 "bearer" "").expiresAt ∧
    (EisCli.TokenStore.mk "a" "r" 100 "bearer" "").isValid 0 = false ∧
    (EisCli.TokenStore.mk "a" "r" 100 "bearer" "").needsRefresh 0 = true := by
  refine ⟨by decide, by decide, by decide, rfl, rfl⟩

/-- C1 (amended): for every `TokenStore`, `IsValid` is true iff both tokens
are non-empty and `now + 5 minutes ≤ expiresAt`; `NeedsRefresh` is true iff
both tokens are non-empty and `expiresAt < now + 5 minutes` — both predicates
apply the 5-minute expiry margin of `IsExpired`, not the literal
`expiresAt`. -/
theorem EisCli.validity_margin_characterization (ts : EisCli.TokenStore) (now : Int) :
    (ts.isValid now = true ↔
      ts.accessToken ≠ "" ∧ ts.refreshToken ≠ "" ∧ now + EisCli.fiveMinutes ≤ ts.expiresAt) ∧
    (ts.needsRefresh now = true ↔
      ts.accessToken ≠ "" ∧ ts.refreshToken ≠ "" ∧ ts.expiresAt < now + EisCli.fiveMinutes) := by
  constructor <;>
    simp [EisCli.TokenStore.isValid, EisCli.TokenStore.needsRefresh,
      EisCli.TokenStore.isExpired, not_lt, and_assoc]

/-- C6: for every record with both tokens non-empty, `NeedsRefresh` is true
when `expiresAt = now + 4 minutes` (inside the 5-minute margin) and false when
`expiresAt = now + 6 minutes`. -/
theorem EisCli.refresh_margin_four_six_minutes (a r tt sc : String) (now : Int)
    (ha : a ≠ "") (hr : r ≠ "") :
    (EisCli.TokenStore.mk a r (now + 240) tt sc).needsRefresh now = true ∧
    (EisCli.TokenStore.mk a r (now + 360) tt sc).needsRefresh now = false := by
  constructor <;>
    simp [EisCli.TokenStore.needsRefresh, EisCli.TokenStore.isExpired,
      EisCli.fiveMinutes, ha, hr]

/-- C6 (witness): the margin behaviour at the concrete record
`⟨"x", "y", ·, "bearer", ""⟩` and `now = 0`. -/
theorem EisCli.refresh_margin_four_six_minutes_witness :
    (EisCli.TokenStore.mk "x" "y" 240 "bearer" "").needsRefresh 0 = true ∧
    (EisCli.TokenStore.mk "x" "y" 360 "bearer" "").needsRefresh 0 = false := by
  simpa using EisCli.refresh_margin_four_six_minutes "x" "y" "bearer" "" 0
    (by decide) (by decide)

namespace EisCli

/-- Shape of the JSON body of a token response (oauth.go `tokenResponse`).
Go's `json.Unmarshal` leaves a field at its zero value when the JSON omits
it, so `refreshToken = ""` models a response that omits `refresh_token`. -/
structure TokenResponse where
  accessToken : String
  refreshToken : String
  expiresIn : Int
  tokenType : String
  scopes : String
deriving Repr, DecidableEq

/-- One HTTP response from the credential authority's token endpoint, after
the transport succeeded: the status code, the raw body, and the result of
`json.Unmarshal` on the body (`none` when the body is not parseable). -/
structure AuthorityResponse where
  status : Nat
  body : String
  parsed : Option TokenResponse
deriving Repr, DecidableEq

/-- RefreshAccessToken (oauth.go:268-314), from the point where the
authority's response is in hand: a status other than 200 fails with the
status and body in the message; unparseable JSON fails; otherwise the
returned record is built entirely from the response, with
`expiresAt = now + expiresIn` (the unmarshal error detail is abstracted
away in the parse-failure message). -/
def refreshAccessToken (now : Int) (resp : AuthorityResponse) :
    Except String TokenStore :=
  if resp.status != 200 then
    .error ("token refresh failed (status " ++ toString resp.status ++ "): " ++ resp.body)
  else
    match resp.parsed with
    | none => .error "failed to parse refresh response"
    | some tr =>
      .ok { accessToken := tr.accessToken
            refreshToken := tr.refreshToken
            expiresAt := now + tr.expiresIn
            tokenType := tr.tokenType
            scopes := tr.scopes }

/-- Code-to-token exchange, response-handling part of exchangeCodeForToken
(oauth.go:218-265): identical shape to the refresh call, with its own error
prefixes. -/
def exchangeCodeForToken (now : Int) (resp : AuthorityResponse) :
    Except String TokenStore :=
  if resp.status != 200 then
    .error ("token exchange failed (status " ++ toString resp.status ++ "): " ++ resp.body)
  else
    match resp.parsed with
    | none => .error "failed to parse token response"
    | some tr =>
      .ok { accessToken := tr.accessToken
            refreshToken := tr.refreshToken
            expiresAt := now + tr.expiresIn
            tokenType := tr.tokenType
            scopes := tr.scopes }

/-- The ensureValidToken method (rest_client.go:820-837).  The refresh HTTP
call is represented by the authority's response `resp`; the filesystem write
`Save` by the function `save`.  Components of the result: the gateway's
`tokenStore` field after the call, the record durably persisted during the
call (`none` when nothing was persisted), and the method's error result. -/
def ensureValidToken (now : Int) (ts : TokenStore) (resp : AuthorityResponse)
    (save : TokenStore → Except String Unit) :
    TokenStore × Option TokenStore × Except String Unit :=
  if ts.needsRefresh now then
    match refreshAccessToken now resp with
    | .error e =>
        (ts, none,
         .error ("failed to refresh access token: " ++ e ++
           " (try running 'eiscli auth login' again)"))
    | .ok newTs =>
        match save newTs with
        | .error e => (ts, none, .error ("failed to save refreshed token: " ++ e))
        | .ok _ => (newTs, some newTs, .ok ())
  else (ts, none, .ok ())

/-- LoadOrRefreshToken (oauth.go:317-340), after `Load` already produced
`loaded`: refresh and save when the record needs refresh, otherwise return
the loaded record unchanged. -/
def loadOrRefreshToken (now : Int) (loaded : TokenStore) (resp : AuthorityResponse)
    (save : TokenStore → Except String Unit) : Except String TokenStore :=
  if loaded.needsRefresh now then
    match refreshAccessToken now resp with
    | .error e =>
        .error ("failed to refresh token: " ++ e ++
          " (you may need to run 'eiscli auth login' again)")
    | .ok newTs =>
        match save newTs with
        | .error e => .error ("failed to save refreshed token: " ++ e)
        | .ok _ => .ok newTs
  else .ok loaded

/-- Whether and with which bearer token the business HTTP request of one
`doRequest` / `doRequestWithBody` call is attempted. -/
structure BusinessCall where
  attempted : Bool
  bearer : Option String
deriving Repr, DecidableEq

/-- Authentication phase of doRequest / doRequestWithBody
(rest_client.go:53-59 and 107-113) on the OAuth path: run `ensureValidToken`;
on error, return it without building or sending the business HTTP request;
on success, attempt the request with the (possibly refreshed) store's access
token as the bearer credential. -/
def doRequestAuthPhase (now : Int) (ts : TokenStore) (resp : AuthorityResponse)
    (save : TokenStore → Except String Unit) :
    BusinessCall × TokenStore × Except String Unit :=
  match ensureValidToken now ts resp save with
  | (newTs, _, .error e) => (⟨false, none⟩, newTs, .error e)
  | (newTs, _, .ok _) => (⟨true, some newTs.accessToken⟩, newTs, .ok ())

/-- Helper: does `hay` start with `needle`? (character lists) -/
def seqStarts : List Char → List Char → Bool
  | [], _ => true
  | _ :: _, [] => false
  | c :: cs, d :: ds => c == d && seqStarts cs ds

/-- Helper: does `needle` occur as a contiguous run inside `hay`? -/
def seqContains (needle : List Char) : List Char → Bool
  | [] => needle.isEmpty
  | d :: ds => seqStarts needle (d :: ds) || seqContains needle ds

/-- Helper: does the string `hay` contain the string `needle`? -/
def strContains (hay needle : String) : Bool :=
  seqContains needle.data hay.data

end EisCli

namespace EisCli

/-- Helper: whether an `Except` value is a success. -/
def exceptOk {e a : Type} : Except e a → Bool
  | .ok _ => true
  | .error _ => false

/-- Required OAuth scopes (oauth.go:43-53). -/
def requiredScopes : List String :=
  ["account", "repository", "pullrequest", "pullrequest:write",
   "pipeline", "pipeline:write", "pipeline:variable", "webhook"]

/-- Query parameters set by buildAuthURL (oauth.go:205-215) on the
authorization URL, as the key-value pairs handed to `url.Values` before
encoding. -/
def buildAuthURLParams (clientID : String) (port : Nat) (state : String) :
    List (String × String) :=
  [("client_id", clientID),
   ("response_type", "code"),
   ("state", state),
   ("scope", String.intercalate " " requiredScopes),
   ("redirect_uri", "http://localhost:" ++ toString port ++ "/callback")]

/-- Form fields set by exchangeCodeForToken (oauth.go:218-222) for the
code-exchange POST body, as the key-value pairs handed to `url.Values`. -/
def exchangeCodeParams (code : String) (port : Nat) : List (String × String) :=
  [("grant_type", "authorization_code"),
   ("code", code),
   ("redirect_uri", "http://localhost:" ++ toString port ++ "/callback")]

/-- Outcome of `os.Remove` on the token file. -/
inductive RemoveResult where
  | removed
  | notExist
  | failed (msg : String)
deriving Repr, DecidableEq

/-- Clear (token_store.go:77-92), given the outcome of `os.Remove` on the
token path: non-existence is treated as already cleared (no error); any other
removal failure is reported.  (Resolution of the token file path is assumed
to succeed; its failure branch merely reformats that error.) -/
def TokenStore.clear (rm : RemoveResult) : Except String Unit :=
  match rm with
  | .removed => .ok ()
  | .notExist => .ok ()
  | .failed m => .error ("failed to remove token file: " ++ m)

/-- Filesystem-level view of Clear: `os.Remove` on a filesystem modelled by
the token file's presence, then Clear on the outcome. -/
def removeFile : Option TokenStore → RemoveResult × Option TokenStore
  | none => (.notExist, none)
  | some _ => (.removed, none)

/-- Clear acting on the modelled filesystem. -/
def clearFS (fs : Option TokenStore) : Except String Unit × Option TokenStore :=
  let r := removeFile fs
  (TokenStore.clear r.1, r.2)

end EisCli

/-- Helper: an occurrence in the suffix is an occurrence in the whole. -/
theorem EisCli.seqContains_append_right (needle pre suf : List Char)
    (h : EisCli.seqContains needle suf = true) :
    EisCli.seqContains needle (pre ++ suf) = true := by
  induction pre with
  | nil => simpa using h
  | cons c cs ih => simp [EisCli.seqContains, ih]

/-- Helper: an occurrence in the suffix string is an occurrence in the
concatenation. -/
theorem EisCli.strContains_append_right (pre suf needle : String)
    (h : EisCli.strContains suf needle = true) :
    EisCli.strContains (pre ++ suf) needle = true := by
  unfold EisCli.strContains at h ⊢
  rw [String.data_append]
  exact EisCli.seqContains_append_right _ _ _ h

/-- C3 (counterexample): a loaded record with refresh token "old-rt" that
needs refresh, and a successful refresh response (status 200, valid JSON)
that omits `refresh_token`: both RefreshAccessToken and the LoadOrRefreshToken
persistence path yield a record whose refresh token is the empty string, not
the previous "old-rt" — the previous refresh token is NOT kept. -/
theorem EisCli.refresh_omitted_token_not_kept :
    (EisCli.TokenStore.mk "at" "old-rt" 0 "bearer" "").needsRefresh 0 = true ∧
    EisCli.refreshAccessToken 0 ⟨200, "", some ⟨"new-at", "", 3600, "bearer", ""⟩⟩ =
      .ok ⟨"new-at", "", 3600, "bearer", ""⟩ ∧
    EisCli.loadOrRefreshToken 0 (EisCli.TokenStore.mk "at" "old-rt" 0 "bearer" "")
        ⟨200, "", some ⟨"new-at", "", 3600, "bearer", ""⟩⟩ (fun _ => .ok ()) =
      .ok ⟨"new-at", "", 3600, "bearer", ""⟩ ∧
    ("" : String) ≠ "old-rt" := by
  refine ⟨rfl, rfl, rfl, by decide⟩

/-- C3 (amended): when a successful refresh response (status 200, valid JSON)
omits the `refresh_token` field, the record returned by RefreshAccessToken —
and returned and persisted by LoadOrRefreshToken — carries an empty
refreshToken taken verbatim from the response; the previous refresh token is
discarded, not kept. -/
theorem EisCli.refresh_omitted_token_empty (now : Int) (resp : EisCli.AuthorityResponse)
    (tr : EisCli.TokenResponse) (loaded : EisCli.TokenStore)
    (save : EisCli.TokenStore → Except String Unit)
    (hst : resp.status = 200) (hp : resp.parsed = some tr)
    (hrt : tr.refreshToken = "") :
    EisCli.refreshAccessToken now resp =
      .ok ⟨tr.accessToken, "", now + tr.expiresIn, tr.tokenType, tr.scopes⟩ ∧
    (loaded.needsRefresh now = true →
      save ⟨tr.accessToken, "", now + tr.expiresIn, tr.tokenType, tr.scopes⟩ = .ok () →
      EisCli.loadOrRefreshToken now loaded resp save =
        .ok ⟨tr.accessToken, "", now + tr.expiresIn, tr.tokenType, tr.scopes⟩) := by
  have key : EisCli.refreshAccessToken now resp =
      .ok ⟨tr.accessToken, "", now + tr.expiresIn, tr.tokenType, tr.scopes⟩ := by
    simp [EisCli.refreshAccessToken, hst, hp, hrt]
  refine ⟨key, fun hnr hsave => ?_⟩
  simp [EisCli.loadOrRefreshToken, hnr, key, hsave]

/-- C3 (witness): the amended behaviour at a concrete refresh response that
omits `refresh_token`. -/
theorem EisCli.refresh_omitted_token_empty_witness :
    EisCli.refreshAccessToken 0 ⟨200, "", some ⟨"na", "", 3600, "b", ""⟩⟩ =
      .ok ⟨"na", "", (0 : Int) + 3600, "b", ""⟩ ∧
    EisCli.loadOrRefreshToken 0 ⟨"at", "old", 0, "b", ""⟩
        ⟨200, "", some ⟨"na", "", 3600, "b", ""⟩⟩ (fun _ => .ok ()) =
      .ok ⟨"na", "", (0 : Int) + 3600, "b", ""⟩ := by
  have h := EisCli.refresh_omitted_token_empty 0 ⟨200, "", some ⟨"na", "", 3600, "b", ""⟩⟩
    ⟨"na", "", 3600, "b", ""⟩ ⟨"at", "old", 0, "b", ""⟩ (fun _ => .ok ()) rfl rfl rfl
  exact ⟨h.1, h.2 rfl rfl⟩

/-- C4: when the current record needs refresh and the authority answers
status 200 with a parseable body, and saving succeeds, `ensureValidToken`
persists and adopts the ENTIRE record built from the response — in
particular its refreshToken is the response's refresh token, with no field
of the old record merged in. -/
theorem EisCli.refresh_persists_entire_record (now : Int) (ts : EisCli.TokenStore)
    (resp : EisCli.AuthorityResponse) (tr : EisCli.TokenResponse)
    (save : EisCli.TokenStore → Except String Unit)
    (hnr : ts.needsRefresh now = true) (hst : resp.status = 200)
    (hp : resp.parsed = some tr)
    (hsave : save ⟨tr.accessToken, tr.refreshToken, now + tr.expiresIn,
      tr.tokenType, tr.scopes⟩ = .ok ()) :
    EisCli.ensureValidToken now ts resp save =
      (⟨tr.accessToken, tr.refreshToken, now + tr.expiresIn, tr.tokenType, tr.scopes⟩,
       some ⟨tr.accessToken, tr.refreshToken, now + tr.expiresIn, tr.tokenType, tr.scopes⟩,
       .ok ()) ∧
    (EisCli.ensureValidToken now ts resp save).1.refreshToken = tr.refreshToken := by
  have key : EisCli.ensureValidToken now ts resp save =
      (⟨tr.accessToken, tr.refreshToken, now + tr.expiresIn, tr.tokenType, tr.scopes⟩,
       some ⟨tr.accessToken, tr.refreshToken, now + tr.expiresIn, tr.tokenType, tr.scopes⟩,
       .ok ()) := by
    simp [EisCli.ensureValidToken, hnr, EisCli.refreshAccessToken, hst, hp, hsave]
  exact ⟨key, by rw [key]⟩

/-- C4 (witness): wholesale replacement at a concrete old record and a
concrete rotated refresh response. -/
theorem EisCli.refresh_persists_entire_record_witness :
    EisCli.ensureValidToken 0 ⟨"at", "old", 0, "b", ""⟩
        ⟨200, "ok", some ⟨"na", "nr", 3600, "b", "s"⟩⟩ (fun _ => .ok ()) =
      (⟨"na", "nr", (0 : Int) + 3600, "b", "s"⟩,
       some ⟨"na", "nr", (0 : Int) + 3600, "b", "s"⟩, .ok ()) := by
  exact (EisCli.refresh_persists_entire_record 0 ⟨"at", "old", 0, "b", ""⟩
    ⟨200, "ok", some ⟨"na", "nr", 3600, "b", "s"⟩⟩ ⟨"na", "nr", 3600, "b", "s"⟩
    (fun _ => .ok ()) rfl rfl rfl rfl).1

/-- C5 (counterexample): a record that needs refresh, a refresh that
succeeds, and a save that fails with "disk full": the business request is
not attempted, but the returned error is "failed to save refreshed token:
disk full", which does NOT instruct the user to re-run the login flow (it
does not mention "eiscli auth login"), contrary to the claim that every
refresh-or-persist failure does. -/
theorem EisCli.gateway_save_failure_error_message :
    (EisCli.TokenStore.mk "at" "old" 0 "b" "").needsRefresh 0 = true ∧
    EisCli.doRequestAuthPhase 0 ⟨"at", "old", 0, "b", ""⟩
        ⟨200, "", some ⟨"na", "nr", 3600, "b", ""⟩⟩ (fun _ => .error "disk full") =
      (⟨false, none⟩, ⟨"at", "old", 0, "b", ""⟩,
       .error "failed to save refreshed token: disk full") ∧
    EisCli.strContains "failed to save refreshed token: disk full"
      "eiscli auth login" = false := by
  refine ⟨rfl, rfl, by decide⟩

/-- C5 (amended): on the OAuth path, when the current record needs refresh
and either the refresh call or the save of the refreshed record fails, the
business HTTP request is not attempted at all and no bearer token is sent;
when the refresh call itself failed, the returned error instructs the user
to re-run the login flow ("eiscli auth login"), while a save failure is
reported as "failed to save refreshed token" without that instruction. -/
theorem EisCli.gateway_refresh_failure_blocks_request (now : Int)
    (ts : EisCli.TokenStore) (resp : EisCli.AuthorityResponse)
    (save : EisCli.TokenStore → Except String Unit)
    (hnr : ts.needsRefresh now = true) :
    (∀ e, EisCli.refreshAccessToken now resp = .error e →
      EisCli.doRequestAuthPhase now ts resp save =
        (⟨false, none⟩, ts,
         .error ("failed to refresh access token: " ++ e ++
           " (try running 'eiscli auth login' again)")) ∧
      EisCli.strContains
        ("failed to refresh access token: " ++ e ++
          " (try running 'eiscli auth login' again)") "eiscli auth login" = true) ∧
    (∀ newTs e, EisCli.refreshAccessToken now resp = .ok newTs →
      save newTs = .error e →
      EisCli.doRequestAuthPhase now ts resp save =
        (⟨false, none⟩, ts, .error ("failed to save refreshed token: " ++ e))) := by
  refine ⟨fun e he => ⟨?_, ?_⟩, fun newTs e hok hsv => ?_⟩
  · simp [EisCli.doRequestAuthPhase, EisCli.ensureValidToken, hnr, he]
  · exact EisCli.strContains_append_right ("failed to refresh access token: " ++ e)
      " (try running 'eiscli auth login' again)" "eiscli auth login" (by decide)
  · simp [EisCli.doRequestAuthPhase, EisCli.ensureValidToken, hnr, hok, hsv]

/-- C5 (witness): a concrete failing refresh (status 500) at a record that
needs refresh: the business request is not attempted and the error carries
the re-login instruction. -/
theorem EisCli.gateway_refresh_failure_blocks_request_witness :
    EisCli.doRequestAuthPhase 0 ⟨"at", "old", 0, "b", ""⟩ ⟨500, "boom", none⟩
        (fun _ => .ok ()) =
      (⟨false, none⟩, ⟨"at", "old", 0, "b", ""⟩,
       .error ("failed to refresh access token: token refresh failed (status 500): boom" ++
         " (try running 'eiscli auth login' again)")) ∧
    EisCli.strContains
      ("failed to refresh access token: token refresh failed (status 500): boom" ++
        " (try running 'eiscli auth login' again)") "eiscli auth login" = true := by
  have h := (EisCli.gateway_refresh_failure_blocks_request 0 ⟨"at", "old", 0, "b", ""⟩
    ⟨500, "boom", none⟩ (fun _ => .ok ()) rfl).1
    "token refresh failed (status 500): boom" rfl
  exact ⟨h.1, h.2⟩

/-- C7 (counterexample): a 201 response with a parseable JSON body is a 2xx
status, yet both the refresh call and the code exchange fail on it — the
code tests for status 200 exactly, not for the whole 2xx range. -/
theorem EisCli.token_calls_status_201_fails :
    ((200 : Nat) ≤ 201 ∧ (201 : Nat) < 300) ∧
    (EisCli.AuthorityResponse.mk 201 "b" (some ⟨"a", "r", 1, "bearer", ""⟩)).parsed ≠ none ∧
    EisCli.refreshAccessToken 0 ⟨201, "b", some ⟨"a", "r", 1, "bearer", ""⟩⟩ =
      .error "token refresh failed (status 201): b" ∧
    EisCli.exchangeCodeForToken 0 ⟨201, "b", some ⟨"a", "r", 1, "bearer", ""⟩⟩ =
      .error "token exchange failed (status 201): b" := by
  refine ⟨⟨by decide, by decide⟩, by decide, rfl, rfl⟩

/-- C7 (amended): the code exchange and the refresh call fail exactly when
the authority's status is not 200; the failure message surfaces the status
code and the response body; on a 200 response with parseable JSON both
return the TokenRecord built from the response. -/
theorem EisCli.token_calls_status_characterization (now : Int)
    (resp : EisCli.AuthorityResponse) (tr : EisCli.TokenResponse) :
    (resp.status ≠ 200 →
      EisCli.refreshAccessToken now resp =
        .error ("token refresh failed (status " ++ toString resp.status ++ "): " ++
          resp.body) ∧
      EisCli.exchangeCodeForToken now resp =
        .error ("token exchange failed (status " ++ toString resp.status ++ "): " ++
          resp.body)) ∧
    (resp.status = 200 → resp.parsed = some tr →
      EisCli.refreshAccessToken now resp =
        .ok ⟨tr.accessToken, tr.refreshToken, now + tr.expiresIn, tr.tokenType, tr.scopes⟩ ∧
      EisCli.exchangeCodeForToken now resp =
        .ok ⟨tr.accessToken, tr.refreshToken, now + tr.expiresIn, tr.tokenType, tr.scopes⟩) := by
  refine ⟨fun h => ?_, fun h hp => ?_⟩ <;>
    simp [EisCli.refreshAccessToken, EisCli.exchangeCodeForToken, h, *]

/-- C7 (witness): both calls at a concrete non-200 response and at a
concrete 200 response with parseable JSON. -/
theorem EisCli.token_calls_status_characterization_witness :
    EisCli.refreshAccessToken 0 ⟨400, "bad", none⟩ =
      .error ("token refresh failed (status " ++ toString (400 : Nat) ++ "): " ++ "bad") ∧
    EisCli.exchangeCodeForToken 0 ⟨200, "ok", some ⟨"a", "r", 60, "bearer", ""⟩⟩ =
      .ok ⟨"a", "r", (0 : Int) + 60, "bearer", ""⟩ := by
  exact ⟨((EisCli.token_calls_status_characterization 0 ⟨400, "bad", none⟩
      ⟨"a", "r", 60, "bearer", ""⟩).1 (by decide)).1,
    ((EisCli.token_calls_status_characterization 0 ⟨200, "ok", some ⟨"a", "r", 60, "bearer", ""⟩⟩
      ⟨"a", "r", 60, "bearer", ""⟩).2 rfl rfl).2⟩

/-- C8: for every port and state, the `redirect_uri` parameter embedded in
the authorization URL by buildAuthURL equals the `redirect_uri` sent in the
code-exchange request by exchangeCodeForToken, namely
`http://localhost:<port>/callback`. -/
theorem EisCli.redirect_uri_consistent (clientID state code : String) (port : Nat) :
    (EisCli.buildAuthURLParams clientID port state).lookup "redirect_uri" =
      some ("http://localhost:" ++ toString port ++ "/callback") ∧
    (EisCli.exchangeCodeParams code port).lookup "redirect_uri" =
      some ("http://localhost:" ++ toString port ++ "/callback") ∧
    (EisCli.buildAuthURLParams clientID port state).lookup "redirect_uri" =
      (EisCli.exchangeCodeParams code port).lookup "redirect_uri" := by
  refine ⟨rfl, rfl, rfl⟩

/-- C9: Clear is idempotent: on the modelled filesystem it always succeeds
and leaves the token file absent, so clearing twice in a row — or on a
system that never logged in — never errors; and Clear reports a failure
exactly for removal outcomes other than success and non-existence. -/
theorem EisCli.clear_idempotent :
    (∀ fs : Option EisCli.TokenStore,
      (EisCli.clearFS fs).1 = .ok () ∧ (EisCli.clearFS fs).2 = none ∧
      (EisCli.clearFS (EisCli.clearFS fs).2).1 = .ok ()) ∧
    (EisCli.clearFS none).1 = .ok () ∧
    (∀ rm, EisCli.exceptOk (EisCli.TokenStore.clear rm) = false ↔
      ∃ m, rm = .failed m) := by
  refine ⟨fun fs => ?_, rfl, fun rm => ?_⟩
  · cases fs <;> exact ⟨rfl, rfl, rfl⟩
  · cases rm <;> simp [EisCli.TokenStore.clear, EisCli.exceptOk]

/-- C10: ensureValidToken is atomic with respect to the gateway's in-memory
token record: whenever it returns an error — the refresh call failed or the
save of the refreshed record failed — the `tokenStore` field is left
unchanged; it is reassigned only after both succeeded. -/
theorem EisCli.ensureValidToken_atomic (now : Int) (ts : EisCli.TokenStore)
    (resp : EisCli.AuthorityResponse) (save : EisCli.TokenStore → Except String Unit)
    (e : String)
    (h : (EisCli.ensureValidToken now ts resp save).2.2 = .error e) :
    (EisCli.ensureValidToken now ts resp save).1 = ts := by
  cases hnr : ts.needsRefresh now with
  | false => simp [EisCli.ensureValidToken, hnr]
  | true =>
    cases hr : EisCli.refreshAccessToken now resp with
    | error e2 => simp [EisCli.ensureValidToken, hnr, hr]
    | ok newTs =>
      cases hs : save newTs with
      | error e2 => simp [EisCli.ensureValidToken, hnr, hr, hs]
      | ok u => simp [EisCli.ensureValidToken, hnr, hr, hs] at h

/-- C10 (witness): at a concrete failing refresh, the in-memory record is
unchanged. -/
theorem EisCli.ensureValidToken_atomic_witness :
    (EisCli.ensureValidToken 0 ⟨"at", "old", 0, "b", ""⟩ ⟨400, "bad", none⟩
      (fun _ => .ok ())).1 = ⟨"at", "old", 0, "b", ""⟩ := by
  exact EisCli.ensureValidToken_atomic 0 ⟨"at", "old", 0, "b", ""⟩ ⟨400, "bad", none⟩
    (fun _ => .ok ())
    ("failed to refresh access token: token refresh failed (status 400): bad" ++
      " (try running 'eiscli auth login' again)") rfl
